import Mathlib

/-!
Verification of the guest-resident process-attach subsystem of this
repository.  The development shallowly embeds, in order:

* the TTY transcoder (escape rewriting applied to TTY-mode streams);
* the transport handshake retry loop of the serial back-channel client
  (`mockBackChannel` in the tether attach test file);
* the session registry with its attach / detach / reattach lifecycle and
  the client-facing error taxonomy;
* the appliance-initialization waiter `ensureApplianceInitializes` and the
  `docker info` probe `isPortLayerRunning`
  (`lib/install/management/appliance.go`).

Machine bytes are modelled as `Nat`, byte sequences as `List Nat`; fallible
operations return `Except`/`Option`.
-/

/-! ## TTY transcoder -/

/-- Modelled from the spec: the TTY transcoder source is not in the tree;
only the skipped test `TestAttachTTY` is, and it fixes the observed sample
`0x1b ↦ 0x5e 0x5b` (ESC is rewritten to the two bytes "^[").  Per the spec,
control bytes that would be ambiguous inside the control-channel framing
are rewritten to an escaped two-byte representation; for the rewrite to be
undone exactly on any input the escape lead byte `0x5e` must itself be
escaped, which the sample does not contradict.  `ttyEncode` is the
guest→host direction. -/
def ttyEncode : List Nat → List Nat
  | [] => []
  | b :: rest =>
    if b = 0x1b then 0x5e :: 0x5b :: ttyEncode rest
    else if b = 0x5e then 0x5e :: 0x5e :: ttyEncode rest
    else b :: ttyEncode rest

/-- Modelled from the spec: one step of the inverse rewrite.  `pending`
records whether the previous byte was the escape lead `0x5e` whose pair has
not arrived yet (the transcoder buffers a possible partial escape sequence
across reads rather than emitting it prematurely). -/
def ttyDecodeStep (pending : Bool) (b : Nat) : List Nat × Bool :=
  if pending then
    if b = 0x5b then ([0x1b], false)
    else if b = 0x5e then ([0x5e], false)
    else ([0x5e, b], false)
  else
    if b = 0x5e then ([], true)
    else ([b], false)

/-- Modelled from the spec: decode one read's worth of bytes, carrying the
partial-escape buffer state in and out. -/
def ttyDecodeChunk (pending : Bool) : List Nat → List Nat × Bool
  | [] => ([], pending)
  | b :: rest =>
    let s := ttyDecodeStep pending b
    let r := ttyDecodeChunk s.2 rest
    (s.1 ++ r.1, r.2)

/-- Modelled from the spec: bytes emitted when the stream ends while a
partial escape sequence is still buffered. -/
def ttyDecodeFlush : Bool → List Nat
  | true => [0x5e]
  | false => []

/-- Modelled from the spec: host→guest direction, decoding a complete
stream. -/
def ttyDecode (xs : List Nat) : List Nat :=
  (ttyDecodeChunk false xs).1 ++ ttyDecodeFlush (ttyDecodeChunk false xs).2

/-- Modelled from the spec: decoding a stream delivered in two reads, with
the partial-escape buffer carried across the read boundary. -/
def ttyDecodeTwoReads (c1 c2 : List Nat) : List Nat :=
  (ttyDecodeChunk false c1).1 ++
    (ttyDecodeChunk (ttyDecodeChunk false c1).2 c2).1 ++
    ttyDecodeFlush (ttyDecodeChunk (ttyDecodeChunk false c1).2 c2).2

theorem ttyDecodeChunk_append (p : Bool) (a b : List Nat) :
    ttyDecodeChunk p (a ++ b) =
      ((ttyDecodeChunk p a).1 ++ (ttyDecodeChunk (ttyDecodeChunk p a).2 b).1,
        (ttyDecodeChunk (ttyDecodeChunk p a).2 b).2) := by
  induction a generalizing p with
  | nil => simp [ttyDecodeChunk]
  | cons x xs ih => simp [ttyDecodeChunk, ih, List.append_assoc]

theorem ttyDecodeChunk_encode (x : List Nat) :
    ttyDecodeChunk false (ttyEncode x) = (x, false) := by
  induction x with
  | nil => simp [ttyEncode, ttyDecodeChunk]
  | cons b rest ih =>
    by_cases hesc : b = 0x1b
    · subst hesc
      simp [ttyEncode, ttyDecodeChunk, ttyDecodeStep, ih]
    · by_cases hcaret : b = 0x5e
      · subst hcaret
        simp [ttyEncode, ttyDecodeChunk, ttyDecodeStep, ih]
      · simp [ttyEncode, ttyDecodeChunk, ttyDecodeStep, hesc, hcaret, ih]

theorem ttyDecode_ttyEncode (x : List Nat) : ttyDecode (ttyEncode x) = x := by
  simp [ttyDecode, ttyDecodeChunk_encode, ttyDecodeFlush]

/-! ## Transport handshake retry loop

Embedded from `mockBackChannel` in the tether attach test file: a
once-per-second ticker drives `serial.HandshakeClient` attempts; an `io.EOF`
from an attempt means the peer intentionally closed its end and is returned
at once; any other handshake error is logged and the attempt is retried on
the next tick; when the caller's context fires the connection is closed and
`ctx.Err()` is returned. -/

/-- Outcome of one `serial.HandshakeClient` attempt, as observed by the
retry loop in `mockBackChannel`: success, `io.EOF`, or any other error. -/
inductive HandshakeOutcome
  | success
  | eofErr
  | otherErr
deriving DecidableEq

/-- One wake-up of the `select` in `mockBackChannel`: either the ticker
fires and a handshake attempt with the given outcome runs, or the caller's
context is done. -/
inductive LoopEvent
  | tick (r : HandshakeOutcome)
  | ctxDone
deriving DecidableEq

/-- What `mockBackChannel` returns: an established connection, the
`io.EOF` forwarded when the peer closed its end, or the context's error. -/
inductive BackChannelResult
  | connected
  | peerClosedEOF
  | cancelled
deriving DecidableEq

/-- Return value of the loop together with whether `conn.Close()` was
called on the way out (the `ctx.Done()` branch closes the connection). -/
structure BackChannelReturn where
  result : BackChannelResult
  connClosed : Bool
deriving DecidableEq

/-- Fixed retry interval of the ticker in `mockBackChannel`, in
milliseconds (`time.NewTicker(1000 * time.Millisecond)`). -/
def handshakeRetryIntervalMS : Nat := 1000

/-- Embedded from the `for`/`select` loop of `mockBackChannel`, as a
function of the sequence of wake-ups it observes.  `none` means the loop is
still spinning after consuming every event. -/
def mockBackChannelLoop : List LoopEvent → Option BackChannelReturn
  | [] => none
  | .ctxDone :: _ => some ⟨.cancelled, true⟩
  | .tick .success :: _ => some ⟨.connected, false⟩
  | .tick .eofErr :: _ => some ⟨.peerClosedEOF, false⟩
  | .tick .otherErr :: rest => mockBackChannelLoop rest

/-! ## Session registry and attach lifecycle

Modelled from the spec: the tether session registry and attach server
source is not in the tree; only its tests (`TestAttach*`, `TestReattach`)
and the scripted caller expectations (`1-09-Docker-Attach.robot`) are.
Sessions carry the configured id/name/tty/attachable/runBlock flags and a
lifecycle status; the session's process is the test workload `tee`, which
echoes stdin to stdout, so process output is modelled as the retained
stdout buffer fed by stdin writes while the process is alive. -/

/-- Modelled from the spec: session lifecycle status.  Created `Pending`;
`Running` once the process starts; `Detached` when an attached stream
closes without terminating the process; `Exited` is terminal. -/
inductive Status
  | Pending
  | Running
  | Detached
  | Exited
deriving DecidableEq

/-- Modelled from the spec: the immutable per-session configuration
(`executor.SessionConfig` fields used by the attach subsystem). -/
structure SessionConfig where
  id : String
  name : String
  tty : Bool
  attachable : Bool
  runBlock : Bool
deriving DecidableEq

/-- Modelled from the spec: a registered session.  `bound` is true while a
stream is bound to the session's I/O handles; `outBuf` is the retained
stdout buffer (drained from the process and replayed to the next attached
stream); `signals` records signal names delivered via the out-of-band
`Signal` operation. -/
structure Session where
  cfg : SessionConfig
  status : Status
  bound : Bool
  outBuf : List Nat
  signals : List String
deriving DecidableEq

/-- Modelled from the spec: registration creates the session `Pending`,
unbound, with an empty retained buffer. -/
def registerSession (cfg : SessionConfig) : Session :=
  { cfg := cfg, status := .Pending, bound := false, outBuf := [], signals := [] }

/-- Modelled from the spec: the registry is the in-guest mapping from
session id to session state, here an association list keyed by
`Session.cfg.id`. -/
abbrev Registry := List Session

/-- Modelled from the spec: registry population from a configuration's
session list. -/
def registerAll (cfgs : List SessionConfig) : Registry :=
  cfgs.map registerSession

/-- Modelled from the spec: registry lookup by session id. -/
def lookup (reg : Registry) (id : String) : Option Session :=
  reg.find? (fun s => decide (s.cfg.id = id))

/-- Modelled from the spec: update the session with the given id in place,
leaving every other session untouched. -/
def updateSession (reg : Registry) (id : String) (f : Session → Session) : Registry :=
  reg.map (fun s => if s.cfg.id = id then f s else s)

/-- Modelled from the spec: `EnumerateSessions`/`List` returns all ids
currently in the registry regardless of each session's state or flags. -/
def enumerateSessions (reg : Registry) : List String :=
  reg.map (fun s => s.cfg.id)

/-- Modelled from the spec: the client-facing error taxonomy of the attach
protocol (`NoSuchSession`, `NotAttachable`, `AlreadyBound`, `NotRunning`). -/
inductive AttachError
  | noSuchSession (id : String)
  | notAttachable
  | alreadyBound
  | notRunning
deriving DecidableEq

/-- Modelled from the spec: the stable client-observable message text of
each error kind; the two texts fixed verbatim by the spec and the scripted
callers are reproduced exactly. -/
def errMessage : AttachError → String
  | .noSuchSession id => "No such container: " ++ id
  | .notAttachable => "attach not permitted for this session"
  | .alreadyBound => "a stream is already bound to this session"
  | .notRunning => "You cannot attach to a stopped container, start it first"

/-- Modelled from the spec: the process/operation exit status observed at
the boundary consumed by scripted callers — 0 on success, 1 for the
client-facing attach errors. -/
def boundaryExitStatus {α : Type} : Except AttachError α → Nat
  | .ok _ => 0
  | .error _ => 1

/-- Modelled from the spec: the per-session effect of binding a new
stream — the status moves to `Running` unless the session already exited
(pure log replay leaves `Exited` alone). -/
def attachBind (t : Session) : Session :=
  { t with bound := true,
           status := if t.status = .Exited then t.status else .Running }

/-- Modelled from the spec: `OpenStream`/`Attach`.  Fails `noSuchSession`
if the id is absent, `notAttachable` if the session's flag is false,
`alreadyBound` if a stream is bound, `notRunning` if the process exited and
the client did not request a pure log replay; otherwise binds a new stream
and moves the status to `Running`. -/
def openStream (reg : Registry) (id : String) (replay : Bool) :
    Except AttachError Registry :=
  match lookup reg id with
  | none => .error (.noSuchSession id)
  | some s =>
    if s.cfg.attachable = false then .error .notAttachable
    else if s.bound then .error .alreadyBound
    else if s.status = .Exited ∧ replay = false then .error .notRunning
    else .ok (updateSession reg id attachBind)

/-- Modelled from the spec: whether the session's process is alive (spawned
and not yet exited). -/
def processAlive : Status → Bool
  | .Running => true
  | .Detached => true
  | _ => false

/-- Modelled from the spec: the per-session effect of a stdin write — the
test workload `tee` echoes the bytes, which land at the tail of the
retained stdout buffer, in write order. -/
def echoWrite (bytes : List Nat) (s : Session) : Session :=
  if processAlive s.status then { s with outBuf := s.outBuf ++ bytes } else s

/-- Modelled from the spec: bytes written to a stream's stdin reach the
bound process in write order; the echoed output is drained into the
session's retained buffer. -/
def writeStdin (reg : Registry) (id : String) (bytes : List Nat) : Registry :=
  updateSession reg id (echoWrite bytes)

/-- Modelled from the spec: the per-session effect of a stream read —
consumed bytes leave the retained buffer. -/
def dropRead (n : Nat) (s : Session) : Session :=
  { s with outBuf := s.outBuf.drop n }

/-- Modelled from the spec: an attached stream reads up to `n` bytes of the
session's stdout, buffered bytes first (replay-then-live order), removing
them from the retained buffer. -/
def readStdout (reg : Registry) (id : String) (n : Nat) : List Nat × Registry :=
  match lookup reg id with
  | none => ([], reg)
  | some s => (s.outBuf.take n, updateSession reg id (dropRead n))

/-- Modelled from the spec: the per-session effect of either form of
client-side stream teardown — unbind, and move `Running` to `Detached`;
never to `Exited`. -/
def detachFun (s : Session) : Session :=
  { s with bound := false,
           status := if s.status = .Running then .Detached else s.status }

/-- Modelled from the spec: closing only the stdin half of a bound stream —
the server interprets this as detach: the session moves `Running →
Detached` and the process keeps running. -/
def detachStdin (reg : Registry) (id : String) : Registry :=
  updateSession reg id detachFun

/-- Modelled from the spec: closing the whole stream is a hard disconnect
and still only detaches — it never kills the process. -/
def closeStream (reg : Registry) (id : String) : Registry :=
  updateSession reg id detachFun

/-- Modelled from the spec: the per-session record of a delivered signal. -/
def signalFun (sig : String) (s : Session) : Session :=
  { s with signals := s.signals ++ [sig] }

/-- Modelled from the spec: out-of-band `Signal(name)` delivers a signal to
the session's process; delivery itself does not change lifecycle state (a
termination it causes is reported by the process-exit notification). -/
def signalSession (reg : Registry) (id : String) (sig : String) : Registry :=
  updateSession reg id (signalFun sig)

/-- Modelled from the spec: the per-session effect of the process-exit
notification — the only transition into `Exited`. -/
def exitFun (s : Session) : Session :=
  { s with status := .Exited, bound := false }

/-- Modelled from the spec: `NotifySessionExited(id, code)` from the
process-supervision boundary. -/
def notifySessionExited (reg : Registry) (id : String) (_code : Nat) : Registry :=
  updateSession reg id exitFun

/-- Modelled from the spec: the events the attach subsystem reacts to.  A
failed `openEv` leaves the registry unchanged (client-facing errors are
returned synchronously and never crash the server). -/
inductive Event
  | registerEv (cfg : SessionConfig)
  | openEv (id : String) (replay : Bool)
  | writeEv (id : String) (bytes : List Nat)
  | readEv (id : String) (n : Nat)
  | detachEv (id : String)
  | closeEv (id : String)
  | signalEv (id : String) (sig : String)
  | exitEv (id : String) (code : Nat)

/-- Modelled from the spec: registry evolution under one event. -/
def step (reg : Registry) : Event → Registry
  | .registerEv cfg => reg ++ [registerSession cfg]
  | .openEv id replay =>
    match openStream reg id replay with
    | .ok reg' => reg'
    | .error _ => reg
  | .writeEv id bytes => writeStdin reg id bytes
  | .readEv id n => (readStdout reg id n).2
  | .detachEv id => detachStdin reg id
  | .closeEv id => closeStream reg id
  | .signalEv id sig => signalSession reg id sig
  | .exitEv id code => notifySessionExited reg id code

/-- Events that the spec names as the only drivers of process termination:
the process exiting on its own, or an explicit `Signal`. -/
def isTerminationEvent : Event → Bool
  | .exitEv _ _ => true
  | .signalEv _ _ => true
  | _ => false

/-- One attach cycle of `TestReattach`: attach (no log replay), write the
payload to stdin, read exactly that many bytes back from stdout, then
detach by closing the stdin half. -/
def cycleOnce (reg : Registry) (id : String) (payload : List Nat) :
    Except AttachError (List Nat × Registry) :=
  match openStream reg id false with
  | .error e => .error e
  | .ok reg1 =>
    let reg2 := writeStdin reg1 id payload
    let r := readStdout reg2 id payload.length
    .ok (r.1, detachStdin r.2 id)

/-- Consecutive attach/write/read/detach cycles, one per payload; `none` if
any attach fails. -/
def runCycles (reg : Registry) (id : String) :
    List (List Nat) → Option (List (List Nat))
  | [] => some []
  | p :: ps =>
    match cycleOnce reg id p with
    | .error _ => none
    | .ok r =>
      match runCycles r.2 id ps with
      | none => none
      | some outs => some (r.1 :: outs)

/-! ## Appliance initialization waiter

Embedded from `Dispatcher.ensureApplianceInitializes` in
`lib/install/management/appliance.go`. -/

/-- The guest-visible key for the client network's assigned IP address
(first key waited on). -/
def clientIPKey : String := "guestinfo.vice..init.networks|client.assigned.IP"

/-- The started key of the vicadmin component. -/
def vicadminKey : String := "guestinfo.vice..init.sessions|vicadmin.started"

/-- The started key of the docker-personality component. -/
def dockerPersonalityKey : String :=
  "guestinfo.vice..init.sessions|docker-personality.started"

/-- The started key of the port-layer component. -/
def portLayerKey : String := "guestinfo.vice..init.sessions|port-layer.started"

/-- The two error values `context.Err()` can report. -/
inductive CtxErr
  | canceledErr
  | deadlineExceeded
deriving DecidableEq

/-- Environment of one `ensureApplianceInitializes` run: whether
`d.appliance` is non-nil, `d.ctx.Err()` as read right after the IP wait and
as re-read before diagnostics, whether the refreshed configuration carries
a specified (non-zero) client IP, and whether the diagnostic configuration
re-fetch fails. -/
structure ApplianceEnv where
  applianceExists : Bool
  ctxErr1 : Option CtxErr
  ctxErr2 : Option CtxErr
  clientIPSpecified : Bool
  refetchFails : Bool
deriving DecidableEq

/-- The distinct return paths of `ensureApplianceInitializes`. -/
inductive InitResult
  | ok
  | errMissingVM
  | errRefetch
  | errTimedOut
  | errNoIP
deriving DecidableEq

/-- Embedded from `ensureApplianceInitializes`: returns the ordered list of
extra-config keys blocked on via `waitForKey`, together with the result.
The sessions keys are waited on only when the context has not fired after
the IP wait; when the client IP is unspecified every path returns an
error (missing second fetch, deadline exceeded, or the generic failure
wrapping the first fetch's error). -/
def ensureApplianceInitializes (env : ApplianceEnv) : List String × InitResult :=
  if env.applianceExists = false then ([], .errMissingVM)
  else
    let waits :=
      if env.ctxErr1 = none then
        [clientIPKey, vicadminKey, dockerPersonalityKey, portLayerKey]
      else [clientIPKey]
    if env.clientIPSpecified then (waits, .ok)
    else if env.refetchFails then (waits, .errRefetch)
    else if env.ctxErr2 = some .deadlineExceeded then (waits, .errTimedOut)
    else (waits, .errNoIP)

/-! ## Port-layer liveness probe

Embedded from `isPortLayerRunning` in `lib/install/management/appliance.go`. -/

/-- The two fields of the unmarshalled `docker info` response that
`isPortLayerRunning` inspects (`dockertypes.Info`). -/
structure DockerSystemInfo where
  driver : String
  systemStatus : List (String × String)
deriving DecidableEq

/-- Embedded from the loop of `isPortLayerRunning`: on the first
`SystemStatus` entry whose name equals the driver, return whether its value
is exactly "RUNNING"; absent such an entry, false. -/
def firstDriverStatus (drv : String) : List (String × String) → Bool
  | [] => false
  | e :: rest =>
    if e.1 = drv then decide (e.2 = "RUNNING") else firstDriverStatus drv rest

/-- Embedded from `isPortLayerRunning`: reading the response body and JSON
unmarshalling are the two fallible steps; either failure yields `false`,
never an error. -/
def isPortLayerRunning (readBody : Except String (List Nat))
    (unmarshal : List Nat → Except String DockerSystemInfo) : Bool :=
  match readBody with
  | .error _ => false
  | .ok body =>
    match unmarshal body with
    | .error _ => false
    | .ok info => firstDriverStatus info.driver info.systemStatus

/-! ## Registry lemmas -/

theorem lookup_updateSession_same (reg : Registry) (id : String)
    (f : Session → Session) (hf : ∀ s, (f s).cfg = s.cfg) :
    lookup (updateSession reg id f) id = (lookup reg id).map f := by
  induction reg with
  | nil => rfl
  | cons s rest ih =>
    by_cases h : s.cfg.id = id
    · have hfs : (f s).cfg.id = id := by rw [hf]; exact h
      show List.find? _ ((if s.cfg.id = id then f s else s) :: _) = _
      rw [if_pos h, List.find?_cons_of_pos _ (by simpa using hfs)]
      unfold lookup
      rw [List.find?_cons_of_pos _ (by simpa using h)]
      rfl
    · show List.find? _ ((if s.cfg.id = id then f s else s) :: _) = _
      rw [if_neg h, List.find?_cons_of_neg _ (by simpa using h)]
      unfold lookup
      rw [List.find?_cons_of_neg _ (by simpa using h)]
      exact ih

theorem lookup_updateSession_other (reg : Registry) (id id' : String)
    (f : Session → Session) (hf : ∀ s, (f s).cfg = s.cfg) (hne : id' ≠ id) :
    lookup (updateSession reg id f) id' = lookup reg id' := by
  induction reg with
  | nil => rfl
  | cons s rest ih =>
    by_cases h : s.cfg.id = id
    · have hfs : (f s).cfg.id = id := by rw [hf]; exact h
      have hno : ¬ (f s).cfg.id = id' := by rw [hfs]; exact fun hc => hne hc.symm
      have hno' : ¬ s.cfg.id = id' := by rw [h]; exact fun hc => hne hc.symm
      show List.find? _ ((if s.cfg.id = id then f s else s) :: _) = _
      rw [if_pos h, List.find?_cons_of_neg _ (by simpa using hno)]
      unfold lookup
      rw [List.find?_cons_of_neg _ (by simpa using hno')]
      exact ih
    · show List.find? _ ((if s.cfg.id = id then f s else s) :: _) = _
      rw [if_neg h]
      by_cases h' : s.cfg.id = id'
      · rw [List.find?_cons_of_pos _ (by simpa using h')]
        unfold lookup
        rw [List.find?_cons_of_pos _ (by simpa using h')]
      · rw [List.find?_cons_of_neg _ (by simpa using h')]
        unfold lookup
        rw [List.find?_cons_of_neg _ (by simpa using h')]
        exact ih

theorem enumerateSessions_updateSession (reg : Registry) (id : String)
    (f : Session → Session) (hf : ∀ s, (f s).cfg = s.cfg) :
    enumerateSessions (updateSession reg id f) = enumerateSessions reg := by
  induction reg with
  | nil => rfl
  | cons s rest ih =>
    show ((if s.cfg.id = id then f s else s).cfg.id) :: _ = _
    by_cases h : s.cfg.id = id
    · rw [if_pos h, hf]
      exact congrArg _ ih
    · rw [if_neg h]
      exact congrArg _ ih

theorem mem_updateSession (reg : Registry) (id : String) (f : Session → Session)
    (t : Session) (ht : t ∈ updateSession reg id f) :
    ∃ s ∈ reg, t = f s ∨ t = s := by
  obtain ⟨s, hs, hst⟩ := List.mem_map.mp ht
  refine ⟨s, hs, ?_⟩
  by_cases h : s.cfg.id = id
  · left; rw [← hst, if_pos h]
  · right; rw [← hst, if_neg h]

theorem attachBind_cfg (s : Session) : (attachBind s).cfg = s.cfg := rfl

theorem echoWrite_cfg (bytes : List Nat) (s : Session) :
    (echoWrite bytes s).cfg = s.cfg := by
  unfold echoWrite; split <;> rfl

theorem dropRead_cfg (n : Nat) (s : Session) : (dropRead n s).cfg = s.cfg := rfl

theorem detachFun_cfg (s : Session) : (detachFun s).cfg = s.cfg := rfl

theorem signalFun_cfg (sig : String) (s : Session) :
    (signalFun sig s).cfg = s.cfg := rfl

theorem exitFun_cfg (s : Session) : (exitFun s).cfg = s.cfg := rfl

theorem lookup_writeStdin_same (reg : Registry) (id : String) (bytes : List Nat) :
    lookup (writeStdin reg id bytes) id = (lookup reg id).map (echoWrite bytes) :=
  lookup_updateSession_same reg id _ (echoWrite_cfg bytes)

theorem lookup_writeStdin_other (reg : Registry) (id id' : String)
    (bytes : List Nat) (h : id' ≠ id) :
    lookup (writeStdin reg id bytes) id' = lookup reg id' :=
  lookup_updateSession_other reg id id' _ (echoWrite_cfg bytes) h

theorem lookup_detachStdin_same (reg : Registry) (id : String) :
    lookup (detachStdin reg id) id = (lookup reg id).map detachFun :=
  lookup_updateSession_same reg id _ detachFun_cfg

theorem lookup_closeStream_same (reg : Registry) (id : String) :
    lookup (closeStream reg id) id = (lookup reg id).map detachFun :=
  lookup_updateSession_same reg id _ detachFun_cfg

theorem openStream_ok_eq (reg : Registry) (id : String) (replay : Bool)
    (reg' : Registry) (h : openStream reg id replay = .ok reg') :
    reg' = updateSession reg id attachBind := by
  unfold openStream at h
  cases hl : lookup reg id <;> rw [hl] at h
  · exact absurd h (by simp)
  · dsimp only at h
    split_ifs at h with h1 h2 h3
    injection h with h'
    exact h'.symm

theorem cycleOnce_ok (reg : Registry) (id : String) (s : Session) (p : List Nat)
    (hl : lookup reg id = some s) (ha : s.cfg.attachable = true)
    (hb : s.bound = false) (hob : s.outBuf = [])
    (hst : s.status = .Pending ∨ s.status = .Detached) :
    ∃ reg' s', cycleOnce reg id p = .ok (p, reg')
      ∧ lookup reg' id = some s' ∧ s'.cfg = s.cfg ∧ s'.bound = false
      ∧ s'.outBuf = [] ∧ s'.status = .Detached := by
  have hne : ¬ s.status = .Exited := by rcases hst with h | h <;> simp [h]
  have hopen : openStream reg id false = .ok (updateSession reg id attachBind) := by
    unfold openStream
    rw [hl]
    simp [ha, hb, hne]
  have hs1 : attachBind s = { s with bound := true, status := .Running } := by
    simp [attachBind, hne]
  have hl1 : lookup (updateSession reg id attachBind) id
      = some { s with bound := true, status := .Running } := by
    rw [lookup_updateSession_same _ _ _ attachBind_cfg, hl, Option.map_some', hs1]
  have hs2 : echoWrite p { s with bound := true, status := .Running }
      = { s with bound := true, status := .Running, outBuf := p } := by
    simp [echoWrite, processAlive, hob]
  have hl2 : lookup (writeStdin (updateSession reg id attachBind) id p) id
      = some { s with bound := true, status := .Running, outBuf := p } := by
    rw [lookup_writeStdin_same, hl1, Option.map_some', hs2]
  have hread : readStdout (writeStdin (updateSession reg id attachBind) id p) id
      p.length
      = (p, updateSession (writeStdin (updateSession reg id attachBind) id p) id
          (dropRead p.length)) := by
    unfold readStdout
    rw [hl2]
    simp
  have hl3 : lookup (updateSession
        (writeStdin (updateSession reg id attachBind) id p) id
        (dropRead p.length)) id
      = some { s with bound := true, status := .Running, outBuf := [] } := by
    rw [lookup_updateSession_same _ _ _ (dropRead_cfg p.length), hl2,
      Option.map_some']
    simp [dropRead]
  have hl4 : lookup (detachStdin (updateSession
        (writeStdin (updateSession reg id attachBind) id p) id
        (dropRead p.length)) id) id
      = some { s with bound := false, status := .Detached, outBuf := [] } := by
    rw [lookup_detachStdin_same, hl3, Option.map_some']
    simp [detachFun]
  refine ⟨_, _, ?_, hl4, rfl, rfl, rfl, rfl⟩
  unfold cycleOnce
  rw [hopen]
  dsimp only
  rw [hread]

theorem updateSession_no_exit (reg : Registry) (id : String) (f : Session → Session)
    (hf : ∀ s, s.status ≠ .Exited → (f s).status ≠ .Exited)
    (h : ∀ s ∈ reg, s.status ≠ .Exited) :
    ∀ t ∈ updateSession reg id f, t.status ≠ .Exited := by
  intro t ht
  obtain ⟨s, hs, hts⟩ := mem_updateSession reg id f t ht
  cases hts with
  | inl h1 => rw [h1]; exact hf s (h s hs)
  | inr h2 => rw [h2]; exact h s hs

theorem step_no_exit (reg : Registry) (e : Event)
    (he : isTerminationEvent e = false)
    (h : ∀ s ∈ reg, s.status ≠ .Exited) :
    ∀ t ∈ step reg e, t.status ≠ .Exited := by
  cases e with
  | registerEv cfg =>
    intro t ht
    rcases List.mem_append.mp ht with hin | hin
    · exact h t hin
    · rcases List.mem_singleton.mp hin with rfl
      simp [registerSession]
  | openEv id replay =>
    show ∀ t ∈ (match openStream reg id replay with
      | .ok reg' => reg' | .error _ => reg), t.status ≠ .Exited
    cases hres : openStream reg id replay with
    | error _ => exact h
    | ok reg' =>
      rw [openStream_ok_eq reg id replay reg' hres]
      refine updateSession_no_exit reg id attachBind ?_ h
      intro s hs
      unfold attachBind
      by_cases hx : s.status = .Exited
      · exact absurd hx hs
      · simp [hx]
  | writeEv id bytes =>
    refine updateSession_no_exit reg id (echoWrite bytes) ?_ h
    intro s hs
    unfold echoWrite
    split <;> simpa using hs
  | readEv id n =>
    show ∀ t ∈ (readStdout reg id n).2, t.status ≠ .Exited
    unfold readStdout
    cases hl : lookup reg id with
    | none => exact h
    | some s =>
      refine updateSession_no_exit reg id (dropRead n) ?_ h
      intro u hu
      simpa [dropRead] using hu
  | detachEv id =>
    refine updateSession_no_exit reg id detachFun ?_ h
    intro s hs
    unfold detachFun
    by_cases hr : s.status = .Running
    · simp [hr]
    · simpa [hr] using hs
  | closeEv id =>
    refine updateSession_no_exit reg id detachFun ?_ h
    intro s hs
    unfold detachFun
    by_cases hr : s.status = .Running
    · simp [hr]
    · simpa [hr] using hs
  | signalEv id sig => exact absurd he (by simp [isTerminationEvent])
  | exitEv id code => exact absurd he (by simp [isTerminationEvent])

/-! ## Claim theorems -/

/-- C1: for a session with `runBlock = true`, any number of consecutive
attach / write-N-bytes / read-N-bytes / detach-stdin cycles succeeds, and
on every cycle the bytes read from stdout are exactly the bytes written in
that same cycle — no leakage from prior cycles and no loss — with reattach
after detach succeeding every time. -/
theorem runBlock_reattach_cycles_echo_exact (reg : Registry) (id : String)
    (s : Session) (payloads : List (List Nat))
    (hl : lookup reg id = some s) (ha : s.cfg.attachable = true)
    (hrb : s.cfg.runBlock = true) (hb : s.bound = false) (hob : s.outBuf = [])
    (hst : s.status = .Pending ∨ s.status = .Detached) :
    runCycles reg id payloads = some payloads := by
  induction payloads generalizing reg s with
  | nil => rfl
  | cons p ps ih =>
    obtain ⟨reg', s', hcy, hl', hcfg, hb', hob', hst'⟩ :=
      cycleOnce_ok reg id s p hl ha hb hob hst
    have hrest := ih reg' s' hl' (by rw [hcfg]; exact ha)
      (by rw [hcfg]; exact hrb) hb' hob' (Or.inr hst')
    unfold runCycles
    rw [hcy]
    dsimp only
    rw [hrest]

/-- C1 witness: 100 cycles on a concrete `runBlock` session echo each
cycle's payload exactly. -/
theorem runBlock_reattach_cycles_echo_exact_witness :
    lookup [⟨⟨"attach", "tether_test_session", false, true, true⟩,
        .Pending, false, [], []⟩] "attach"
      = some ⟨⟨"attach", "tether_test_session", false, true, true⟩,
        .Pending, false, [], []⟩
    ∧ runCycles [⟨⟨"attach", "tether_test_session", false, true, true⟩,
        .Pending, false, [], []⟩] "attach"
        (List.replicate 100 [104, 105, 33])
      = some (List.replicate 100 [104, 105, 33]) :=
  ⟨rfl,
    runBlock_reattach_cycles_echo_exact _ "attach" _
      (List.replicate 100 [104, 105, 33]) rfl rfl rfl rfl rfl (Or.inl rfl)⟩

/-- C2: in the back-channel handshake loop, a handshake attempt that sees
end-of-stream (`io.EOF`) makes the whole attempt terminate at once with the
peer-closed error, whatever events would have followed; any other handshake
error just retries on the next tick of the fixed 1000 ms ticker (spinning
forever if errors keep coming and nothing else happens); and when the
caller's context fires, the connection is closed and the context's error is
returned. -/
theorem handshake_retry_policy :
    (∀ es, mockBackChannelLoop (.tick .eofErr :: es)
      = some ⟨.peerClosedEOF, false⟩)
    ∧ (∀ es, mockBackChannelLoop (.tick .otherErr :: es)
      = mockBackChannelLoop es)
    ∧ (∀ es, mockBackChannelLoop (.ctxDone :: es) = some ⟨.cancelled, true⟩)
    ∧ (∀ n, mockBackChannelLoop (List.replicate n (.tick .otherErr)) = none)
    ∧ handshakeRetryIntervalMS = 1000 := by
  refine ⟨fun es => rfl, fun es => rfl, fun es => rfl, ?_, rfl⟩
  intro n
  induction n with
  | zero => rfl
  | succ n ih => simpa [List.replicate_succ, mockBackChannelLoop] using ih

/-- C3 counterexample: the claimed composition `encode(decode(x)) == x`
fails for `x = [0x1b]` — a bare ESC byte is never produced by the encoder,
so no decoder can make encode a left inverse on all byte sequences. -/
theorem tty_encode_decode_not_inverse :
    ¬ ttyEncode (ttyDecode [0x1b]) = [0x1b] := by decide

/-- C3 amended: `decode(encode(x)) == x` for every byte sequence `x`,
including when `encode(x)` is split arbitrarily across two reads (a partial
escape sequence straddling the boundary is buffered, not emitted
prematurely); the reverse composition `encode(decode(y)) == y` holds for
the canonical encoded streams (the image of `encode`), not for arbitrary
`y`. -/
theorem tty_roundtrip_amended (x : List Nat) :
    ttyDecode (ttyEncode x) = x
    ∧ (∀ c1 c2, ttyEncode x = c1 ++ c2 → ttyDecodeTwoReads c1 c2 = x)
    ∧ ttyEncode (ttyDecode (ttyEncode x)) = ttyEncode x := by
  refine ⟨ttyDecode_ttyEncode x, ?_, by rw [ttyDecode_ttyEncode]⟩
  intro c1 c2 hsplit
  have h := ttyDecodeChunk_encode x
  rw [hsplit, ttyDecodeChunk_append] at h
  have h1 := congrArg Prod.fst h
  have h2 := congrArg Prod.snd h
  simp only at h1 h2
  unfold ttyDecodeTwoReads
  rw [h2, ← h1]
  simp [ttyDecodeFlush]

/-- C3 witness: a round trip where the escape sequence produced for ESC
straddles the two reads. -/
theorem tty_roundtrip_amended_witness :
    ttyEncode [0x1b, 0x41] = [0x5e] ++ [0x5b, 0x41]
    ∧ ttyDecodeTwoReads [0x5e] [0x5b, 0x41] = [0x1b, 0x41] :=
  ⟨by decide,
    (tty_roundtrip_amended [0x1b, 0x41]).2.1 [0x5e] [0x5b, 0x41] (by decide)⟩

/-- C4: `EnumerateSessions`/`List` returns exactly the configured session
ids — same set, same cardinality — independent of registration order, and
session status or flag changes never affect the enumeration (Pending and
non-attachable sessions included). -/
theorem enumerateSessions_all_ids (cfgs cfgs' : List SessionConfig)
    (hperm : cfgs.Perm cfgs') :
    (enumerateSessions (registerAll cfgs')).Perm (cfgs.map SessionConfig.id)
    ∧ (enumerateSessions (registerAll cfgs')).length = cfgs.length
    ∧ (∀ i, i ∈ enumerateSessions (registerAll cfgs')
        ↔ i ∈ cfgs.map SessionConfig.id)
    ∧ ∀ id f, (∀ s, (f s).cfg = s.cfg) →
        enumerateSessions (updateSession (registerAll cfgs') id f)
          = enumerateSessions (registerAll cfgs') := by
  have hmap : enumerateSessions (registerAll cfgs')
      = cfgs'.map SessionConfig.id := by
    simp [enumerateSessions, registerAll, List.map_map]
    exact fun a _ => rfl
  have hp : (enumerateSessions (registerAll cfgs')).Perm
      (cfgs.map SessionConfig.id) := by
    rw [hmap]
    exact (hperm.map SessionConfig.id).symm
  refine ⟨hp, ?_, fun i => hp.mem_iff, fun id f hf =>
    enumerateSessions_updateSession _ id f hf⟩
  rw [hmap]
  simp [hperm.length_eq]

/-- C4 witness: three sessions registered in a different order than
configured (one of them not attachable) enumerate to exactly the configured
ids. -/
theorem enumerateSessions_all_ids_witness :
    ([⟨"tee1", "a", false, true, false⟩, ⟨"tee2", "b", false, true, false⟩,
        ⟨"tee3", "c", false, false, false⟩] : List SessionConfig).Perm
      [⟨"tee3", "c", false, false, false⟩, ⟨"tee1", "a", false, true, false⟩,
        ⟨"tee2", "b", false, true, false⟩]
    ∧ (enumerateSessions (registerAll
        [⟨"tee3", "c", false, false, false⟩, ⟨"tee1", "a", false, true, false⟩,
          ⟨"tee2", "b", false, true, false⟩])).Perm ["tee1", "tee2", "tee3"] :=
  ⟨by decide,
    (enumerateSessions_all_ids
      [⟨"tee1", "a", false, true, false⟩, ⟨"tee2", "b", false, true, false⟩,
        ⟨"tee3", "c", false, false, false⟩]
      [⟨"tee3", "c", false, false, false⟩, ⟨"tee1", "a", false, true, false⟩,
        ⟨"tee2", "b", false, true, false⟩] (by decide)).1⟩

/-- C5: two simultaneously attached sessions with distinct ids do not
cross-talk — after each is written its own payload, each reads back exactly
its own payload, and the bytes read on one session are unchanged under any
replacement of the other session's payload. -/
theorem concurrent_sessions_no_crosstalk (reg : Registry) (a b : String)
    (sa sb : Session) (pA pB : List Nat) (hab : a ≠ b)
    (hla : lookup reg a = some sa) (hsa : sa.status = .Running)
    (hoa : sa.outBuf = [])
    (hlb : lookup reg b = some sb) (hsb : sb.status = .Running)
    (hob : sb.outBuf = []) :
    (readStdout (writeStdin (writeStdin reg a pA) b pB) a pA.length).1 = pA
    ∧ (readStdout (writeStdin (writeStdin reg a pA) b pB) b pB.length).1 = pB
    ∧ ∀ pB' n, (readStdout (writeStdin (writeStdin reg a pA) b pB') a n).1
        = (readStdout (writeStdin (writeStdin reg a pA) b pB) a n).1 := by
  have hla1 : lookup (writeStdin reg a pA) a = some { sa with outBuf := pA } := by
    rw [lookup_writeStdin_same, hla, Option.map_some']
    simp [echoWrite, processAlive, hsa, hoa]
  have hla2 : lookup (writeStdin (writeStdin reg a pA) b pB) a
      = some { sa with outBuf := pA } := by
    rw [lookup_writeStdin_other _ _ _ _ hab, hla1]
  have hlb2 : lookup (writeStdin (writeStdin reg a pA) b pB) b
      = some { sb with outBuf := pB } := by
    rw [lookup_writeStdin_same, lookup_writeStdin_other _ _ _ _ (Ne.symm hab),
      hlb, Option.map_some']
    simp [echoWrite, processAlive, hsb, hob]
  refine ⟨?_, ?_, ?_⟩
  · simp [readStdout, hla2]
  · simp [readStdout, hlb2]
  · intro pB' n
    have hla2' : lookup (writeStdin (writeStdin reg a pA) b pB') a
        = some { sa with outBuf := pA } := by
      rw [lookup_writeStdin_other _ _ _ _ hab, hla1]
    simp [readStdout, hla2, hla2']

/-- C5 witness: two concrete running sessions each echo back exactly their
own distinct payload. -/
theorem concurrent_sessions_no_crosstalk_witness :
    ("tee1" : String) ≠ "tee2"
    ∧ (readStdout (writeStdin (writeStdin
          [⟨⟨"tee1", "a", false, true, false⟩, .Running, true, [], []⟩,
            ⟨⟨"tee2", "b", false, true, false⟩, .Running, true, [], []⟩]
          "tee1" [104, 105]) "tee2" [98, 121, 101]) "tee1" 2).1 = [104, 105] :=
  ⟨by decide,
    (concurrent_sessions_no_crosstalk
      [⟨⟨"tee1", "a", false, true, false⟩, .Running, true, [], []⟩,
        ⟨⟨"tee2", "b", false, true, false⟩, .Running, true, [], []⟩]
      "tee1" "tee2" _ _ [104, 105] [98, 121, 101]
      (by decide) rfl rfl rfl rfl rfl rfl).1⟩

/-- C6: attaching without log replay to a session whose process already
exited fails with the `notRunning` error kind carrying exactly the message
"You cannot attach to a stopped container, start it first", and the exit
status observed at the caller-facing boundary is 1. -/
theorem attach_exited_stopped_message (reg : Registry) (id : String)
    (s : Session) (hl : lookup reg id = some s)
    (ha : s.cfg.attachable = true) (hb : s.bound = false)
    (hx : s.status = .Exited) :
    openStream reg id false = .error .notRunning
    ∧ errMessage .notRunning
      = "You cannot attach to a stopped container, start it first"
    ∧ boundaryExitStatus (openStream reg id false) = 1 := by
  have hopen : openStream reg id false = .error .notRunning := by
    unfold openStream
    rw [hl]
    simp [ha, hb, hx]
  exact ⟨hopen, rfl, by rw [hopen]; rfl⟩

/-- C6 witness: a concrete exited session refuses attach with the exact
stopped-container message and boundary exit status 1. -/
theorem attach_exited_stopped_message_witness :
    lookup [⟨⟨"attach", "n", false, true, false⟩, .Exited, false, [], []⟩]
        "attach"
      = some ⟨⟨"attach", "n", false, true, false⟩, .Exited, false, [], []⟩
    ∧ (openStream [⟨⟨"attach", "n", false, true, false⟩, .Exited, false, [],
          []⟩] "attach" false = .error .notRunning
      ∧ errMessage .notRunning
        = "You cannot attach to a stopped container, start it first"
      ∧ boundaryExitStatus (openStream
          [⟨⟨"attach", "n", false, true, false⟩, .Exited, false, [], []⟩]
          "attach" false) = 1) :=
  ⟨rfl, attach_exited_stopped_message _ "attach" _ rfl rfl rfl rfl⟩

/-- C7: attaching to a session id absent from the registry fails with the
`noSuchSession` error kind, whose message is "No such container: <id>" for
the requested id (hence contains it), with boundary exit status 1; the
failure is non-fatal — the registry is left unchanged and the server keeps
stepping. -/
theorem attach_unknown_no_such_session (reg : Registry) (id : String)
    (replay : Bool) (hl : lookup reg id = none) :
    openStream reg id replay = .error (.noSuchSession id)
    ∧ errMessage (.noSuchSession id) = "No such container: " ++ id
    ∧ boundaryExitStatus (openStream reg id replay) = 1
    ∧ step reg (.openEv id replay) = reg := by
  have hopen : openStream reg id replay = .error (.noSuchSession id) := by
    unfold openStream
    rw [hl]
  refine ⟨hopen, rfl, by rw [hopen]; rfl, ?_⟩
  show (match openStream reg id replay with
    | .ok reg' => reg' | .error _ => reg) = reg
  rw [hopen]

/-- C7 witness: attaching to the unknown id "invalid" on a registry holding
only "valid" yields `noSuchSession` with the expected message, exit status
1, and an unchanged registry. -/
theorem attach_unknown_no_such_session_witness :
    lookup [⟨⟨"valid", "n", false, true, false⟩, .Running, false, [], []⟩]
        "invalid" = none
    ∧ (openStream [⟨⟨"valid", "n", false, true, false⟩, .Running, false, [],
          []⟩] "invalid" false = .error (.noSuchSession "invalid")
      ∧ errMessage (.noSuchSession "invalid") = "No such container: " ++ "invalid"
      ∧ boundaryExitStatus (openStream
          [⟨⟨"valid", "n", false, true, false⟩, .Running, false, [], []⟩]
          "invalid" false) = 1
      ∧ step [⟨⟨"valid", "n", false, true, false⟩, .Running, false, [], []⟩]
          (.openEv "invalid" false)
        = [⟨⟨"valid", "n", false, true, false⟩, .Running, false, [], []⟩]) :=
  ⟨rfl, attach_unknown_no_such_session _ "invalid" false rfl⟩

/-- C8: neither form of client-side stream teardown terminates the
process — closing only the stdin half and closing the whole stream both
move a `Running` session to `Detached` — and along any event trace free of
process-exit and signal events, no session ever becomes `Exited`. -/
theorem teardown_never_kills :
    (∀ reg id s, lookup reg id = some s → s.status = .Running →
      lookup (detachStdin reg id) id
        = some { s with bound := false, status := .Detached }
      ∧ lookup (closeStream reg id) id
        = some { s with bound := false, status := .Detached })
    ∧ ∀ (reg : Registry) (trace : List Event),
        (∀ e ∈ trace, isTerminationEvent e = false) →
        (∀ s ∈ reg, s.status ≠ .Exited) →
        ∀ s ∈ trace.foldl step reg, s.status ≠ .Exited := by
  constructor
  · intro reg id s hl hr
    constructor
    · rw [lookup_detachStdin_same, hl, Option.map_some']
      simp [detachFun, hr]
    · rw [lookup_closeStream_same, hl, Option.map_some']
      simp [detachFun, hr]
  · intro reg trace
    induction trace generalizing reg with
    | nil => exact fun _ h => h
    | cons e es ih =>
      intro hte h
      rw [List.foldl_cons]
      exact ih (step reg e) (fun e' he' => hte e' (List.mem_cons_of_mem e he'))
        (step_no_exit reg e (hte e (List.mem_cons_self e es)) h)

/-- C8 witness: detaching the stdin half of a concrete running session
yields a `Detached` session, and after a detach-then-close trace the
session has not exited. -/
theorem teardown_never_kills_witness :
    lookup [⟨⟨"attach", "n", false, true, false⟩, .Running, true, [], []⟩]
        "attach"
      = some ⟨⟨"attach", "n", false, true, false⟩, .Running, true, [], []⟩
    ∧ lookup (detachStdin
        [⟨⟨"attach", "n", false, true, false⟩, .Running, true, [], []⟩]
        "attach") "attach"
      = some ⟨⟨"attach", "n", false, true, false⟩, .Detached, false, [], []⟩
    ∧ (⟨⟨"attach", "n", false, true, false⟩, .Detached, false, [], []⟩
        : Session).status ≠ .Exited :=
  ⟨rfl,
    (teardown_never_kills.1
      [⟨⟨"attach", "n", false, true, false⟩, .Running, true, [], []⟩] "attach"
      ⟨⟨"attach", "n", false, true, false⟩, .Running, true, [], []⟩ rfl rfl).1,
    teardown_never_kills.2
      [⟨⟨"attach", "n", false, true, false⟩, .Running, true, [], []⟩]
      [.detachEv "attach", .closeEv "attach"] (by decide) (by decide)
      ⟨⟨"attach", "n", false, true, false⟩, .Detached, false, [], []⟩
      (by decide)⟩

/-- C9: `ensureApplianceInitializes` first blocks on the client network's
assigned-IP key; when the context has not been cancelled after that wait it
then blocks, in order, on the started keys of vicadmin, docker-personality
and port-layer; and if no client IP was obtained it returns an error on
every path rather than reporting success. -/
theorem ensureApplianceInitializes_order_and_error (env : ApplianceEnv)
    (hex : env.applianceExists = true) :
    (ensureApplianceInitializes env).1.head? = some clientIPKey
    ∧ (env.ctxErr1 = none →
        (ensureApplianceInitializes env).1
          = [clientIPKey, vicadminKey, dockerPersonalityKey, portLayerKey])
    ∧ (env.clientIPSpecified = false →
        (ensureApplianceInitializes env).2 ≠ .ok) := by
  obtain ⟨ae, c1, c2, ip, rf⟩ := env
  cases ae with
  | false => exact absurd hex (by simp)
  | true =>
    rcases c1 with _ | ce1
    all_goals try cases ce1
    all_goals rcases c2 with _ | ce2
    all_goals try cases ce2
    all_goals cases ip
    all_goals cases rf
    all_goals decide

/-- C9 witness: in an environment with a live appliance, no context error
and no client IP, the waits happen in the specified order and the result is
not success. -/
theorem ensureApplianceInitializes_order_and_error_witness :
    (⟨true, none, none, false, false⟩ : ApplianceEnv).applianceExists = true
    ∧ ((ensureApplianceInitializes ⟨true, none, none, false, false⟩).1.head?
        = some clientIPKey
      ∧ ((⟨true, none, none, false, false⟩ : ApplianceEnv).ctxErr1 = none →
          (ensureApplianceInitializes ⟨true, none, none, false, false⟩).1
            = [clientIPKey, vicadminKey, dockerPersonalityKey, portLayerKey])
      ∧ ((⟨true, none, none, false, false⟩ : ApplianceEnv).clientIPSpecified
            = false →
          (ensureApplianceInitializes
            ⟨true, none, none, false, false⟩).2 ≠ .ok)) :=
  ⟨rfl, ensureApplianceInitializes_order_and_error
    ⟨true, none, none, false, false⟩ rfl⟩

/-- C10 counterexample: `isPortLayerRunning` is not equivalent to "the body
reads and unmarshals and some `SystemStatus` entry named after the driver
has value RUNNING": when the first driver-named entry is not RUNNING but a
later one is, the existential holds yet the function returns false (the
loop returns on the first name match). -/
theorem isPortLayerRunning_existential_refuted :
    isPortLayerRunning (.ok [])
        (fun _ => .ok ⟨"vsphere", [("vsphere", "STOPPED"),
          ("vsphere", "RUNNING")]⟩) = false
    ∧ ∃ e ∈ [("vsphere", "STOPPED"), ("vsphere", "RUNNING")],
        e.1 = "vsphere" ∧ e.2 = "RUNNING" :=
  ⟨rfl, ⟨("vsphere", "RUNNING"), by simp, rfl, rfl⟩⟩

theorem firstDriverStatus_eq_find? (drv : String)
    (l : List (String × String)) :
    firstDriverStatus drv l =
      match l.find? (fun e => decide (e.1 = drv)) with
      | some v => decide (v.2 = "RUNNING")
      | none => false := by
  induction l with
  | nil => rfl
  | cons e rest ih =>
    by_cases h : e.1 = drv
    · rw [List.find?_cons_of_pos _ (by simpa using h)]
      simp [firstDriverStatus, h]
    · rw [List.find?_cons_of_neg _ (by simpa using h)]
      simp only [firstDriverStatus, if_neg h]
      exact ih

/-- C10 amended: `isPortLayerRunning` is total, and returns true exactly
when the body reads, unmarshals, and the FIRST `SystemStatus` entry whose
name equals the reported driver has value exactly "RUNNING"; any read
error or unmarshal error yields false rather than an error. -/
theorem isPortLayerRunning_first_match (readBody : Except String (List Nat))
    (unmarshal : List Nat → Except String DockerSystemInfo) :
    (isPortLayerRunning readBody unmarshal = true ↔
      ∃ body info, readBody = .ok body ∧ unmarshal body = .ok info ∧
        ∃ v, info.systemStatus.find? (fun e => decide (e.1 = info.driver))
            = some v
          ∧ v.2 = "RUNNING")
    ∧ (∀ e, isPortLayerRunning (.error e) unmarshal = false)
    ∧ (∀ body e, unmarshal body = .error e →
        isPortLayerRunning (.ok body) unmarshal = false) := by
  refine ⟨?_, fun e => rfl, ?_⟩
  · cases readBody with
    | error e => simp [isPortLayerRunning]
    | ok body =>
      cases hum : unmarshal body with
      | error e => simp [isPortLayerRunning, hum]
      | ok info =>
        simp only [isPortLayerRunning, hum, firstDriverStatus_eq_find?]
        cases hfind : info.systemStatus.find?
            (fun e => decide (e.1 = info.driver)) with
        | none => simp [hfind, hum]
        | some v =>
          simp [hfind, hum]
          constructor
          · intro h
            exact ⟨v.1, by rw [← h]⟩
          · rintro ⟨a, rfl⟩
            rfl
  · intro body e hum
    simp [isPortLayerRunning, hum]

/-- C10 witness: an unmarshal failure makes the probe answer false rather
than raising. -/
theorem isPortLayerRunning_first_match_witness :
    ((fun _ => .error "bad json" :
        List Nat → Except String DockerSystemInfo) [] = .error "bad json")
    ∧ isPortLayerRunning (.ok [])
        (fun _ => .error "bad json" :
          List Nat → Except String DockerSystemInfo) = false :=
  ⟨rfl, (isPortLayerRunning_first_match (.ok []) _).2.2 [] "bad json" rfl⟩
